import Mathlib

/-!
# my_grep.c: a threaded substring grep

A shallow embedding of `src/my_grep.c` and the properties of its scan engine.

Modelling conventions.
* A C `char` is a `Char`; a buffer, a file content and a C string are `List Char`.
  A buffer is read by `strstr`, `strlen` and `printf("%s")` up to its first NUL byte
  (`cstr`).
* `stdout` is the list of messages printed, in order; every message of a thread is
  printed under one lock/unlock of `mutex_stdout`, so a message is never split.
  The interleaving of the messages of different threads is not modelled: each
  thread's messages are kept in its own result.
* The file system is the function `fopen`: a path is mapped to the content of the
  file, or to the text of `strerror(errno)` when it cannot be opened.
* The pattern and the file names come from `argv` and are C strings: the theorems
  about them assume that they hold no NUL byte.
* The line counter `int ln` is an integer of 32 bits: `ln++` is followed by `wrapInt`.
  The overflow of a signed integer is undefined in C; the model takes what the two's
  complement machines do, the step from 2147483647 to -2147483648. The theorems that
  state a line number say for which files they hold (fewer than 2^31 calls of `fgets`).
* The counters `long count` and `unsigned long long total_matched_lines` and the
  index `long id` are natural numbers: they count lines read and threads, and a file
  of 2^63 lines does not exist.
-/

namespace MyGrep

/-! ## Constants and C strings -/

/-- The constant `#define MAX_LINE_LENGTH 1024`. -/
def MAX_LINE_LENGTH : Nat := 1024

/-- The value of `EXIT_SUCCESS`. -/
def EXIT_SUCCESS : Nat := 0

/-- The value of `EXIT_FAILURE`. -/
def EXIT_FAILURE : Nat := 1

/-- The terminating byte of a C string. -/
def NUL : Char := Char.ofNat 0

/-- The newline byte. -/
def NL : Char := Char.ofNat 10

/-- The C string held by a buffer: the bytes before the first NUL. -/
def cstr : List Char → List Char
  | [] => []
  | c :: s => if c = NUL then [] else c :: cstr s

/-- The library call `strlen`. -/
def strlen (s : List Char) : Nat := (cstr s).length

/-- Whether `needle` stands at the start of `s`. -/
def startsWith : List Char → List Char → Bool
  | [], _ => true
  | _ :: _, [] => false
  | a :: needle, b :: s => a == b && startsWith needle s

/-- Scan of `strstr`: the offset of the first place of `s` where `needle` stands. -/
def strstrFrom (needle : List Char) : List Char → Option Nat
  | [] => if startsWith needle [] then some 0 else none
  | c :: s =>
    if startsWith needle (c :: s) then some 0
    else (strstrFrom needle s).map Nat.succ

/-- The library call `strstr(haystack, needle)`: the offset of the first occurrence of
the C string `needle` in the C string `haystack`, `none` for the NULL pointer. -/
def strstr (haystack needle : List Char) : Option Nat :=
  strstrFrom (cstr needle) (cstr haystack)

/-! ## Reading lines -/

/-- The bytes one `fgets` call stores when there is room for `room` of them: it stops
after a newline, when the room is used up, or at the end of the file. The second
component is what is left of the stream. -/
def fgetsRead : Nat → List Char → List Char × List Char
  | 0, stream => ([], stream)
  | _ + 1, [] => ([], [])
  | room + 1, c :: stream =>
    if c = NL then ([c], stream)
    else ((c :: (fgetsRead room stream).1), (fgetsRead room stream).2)

/-- The library call `fgets(line, size, file)`: `none` for NULL (end of file with no
byte read), otherwise the buffer content (at most `size - 1` bytes, the newline
included when it is reached) and the rest of the stream. -/
def fgets (size : Nat) (stream : List Char) : Option (List Char × List Char) :=
  match stream with
  | [] => none
  | _ :: _ => some (fgetsRead (size - 1) stream)

/-! ## Messages -/

/-- Conversion `%li`, `%llu` of a non-negative number. -/
def fmtNum (n : Nat) : List Char := Nat.toDigits 10 n

/-- Conversion `%d` of an `int`. -/
def fmtInt (n : Int) : List Char :=
  if n < 0 then '-' :: Nat.toDigits 10 n.natAbs else Nat.toDigits 10 n.toNat

/-- The value held by an `int` after a computation whose exact result is `n`: the
32 bits of `n` in two's complement, between -2147483648 and 2147483647. -/
def wrapInt (n : Int) : Int := (n + 2147483648) % 4294967296 - 2147483648

/-- The text of `printf("<%s : %d>: %s", filename, ln, line)`. -/
def printfMatch (filename : List Char) (ln : Int) (line : List Char) : List Char :=
  "<".toList ++ cstr filename ++ " : ".toList ++ fmtInt ln ++ ">: ".toList ++ cstr line

/-- The text of `printf("Thread %li: %li matches are found in file %s\n", id, count, filename)`. -/
def printfSummary (id count : Nat) (filename : List Char) : List Char :=
  "Thread ".toList ++ fmtNum id ++ ": ".toList ++ fmtNum count
    ++ " matches are found in file ".toList ++ cstr filename ++ "\n".toList

/-- The text of
`printf("Thread %li could not open <%s> file for reading: %s\n", id, filename, strerror(errno))`. -/
def printfOpenFailed (id : Nat) (filename err : List Char) : List Char :=
  "Thread ".toList ++ fmtNum id ++ " could not open <".toList ++ cstr filename
    ++ "> file for reading: ".toList ++ cstr err ++ "\n".toList

/-- The text of `printf("Total matched lines: %llu\n", total_matched_lines)`. -/
def printfTotal (total : Nat) : List Char :=
  "Total matched lines: ".toList ++ fmtNum total ++ "\n".toList

/-! ## The thread function -/

/-- The global `input_data`. -/
structure InputData where
  pattern : List Char
  files : List (List Char)

/-- What a thread leaves behind: the messages it printed and its return value. -/
structure ThreadResult where
  stdout : List (List Char)
  ret : Nat
deriving DecidableEq

/-- The loop `for(int ln = 1; fgets(line, MAX_LINE_LENGTH, file) != NULL; ln++)` of
`threaded_search`, from the state `(file, ln, count)`: the messages printed from there
on and the final `count`. The step `ln++` is made on an `int`. Every iteration consumes
at least one byte of the stream, so its length is enough fuel (`concat_linesRead` shows
that nothing is left unread). -/
def searchLoop (filename pattern : List Char) :
    Nat → List Char → Int → Nat → List (List Char) × Nat
  | 0, _, _, count => ([], count)
  | fuel + 1, file, ln, count =>
    match fgets MAX_LINE_LENGTH file with
    | none => ([], count)
    | some (line, rest) =>
      if (strstr line pattern).isSome then
        match searchLoop filename pattern fuel rest (wrapInt (ln + 1)) (count + 1) with
        | (out, total) => (printfMatch filename ln line :: out, total)
      else searchLoop filename pattern fuel rest (wrapInt (ln + 1)) count

/-- The function `threaded_search`, run by the thread `thread_id`. -/
def threaded_search (fopen : List Char → Except (List Char) (List Char))
    (input_data : InputData) (thread_id : Nat) : ThreadResult :=
  let filename := input_data.files.getD thread_id []
  match fopen (cstr filename) with
  | .error err => { stdout := [printfOpenFailed thread_id filename err], ret := 0 }
  | .ok file =>
    match searchLoop filename input_data.pattern file.length file 1 0 with
    | (out, count) => { stdout := out ++ [printfSummary thread_id count filename], ret := count }

/-! ## The main function -/

/-- What a run of `main` leaves behind: the exit status, the messages printed by `main`
itself, the results of the threads it joined (in joining order), and the number of
threads it started and left behind without joining them. -/
structure MainResult where
  status : Nat
  stdout : List (List Char)
  threads : List ThreadResult
  abandoned : Nat
deriving DecidableEq

/-- The joining loop of `main`: `total_matched_lines += ret_value` for each thread. -/
def joinLoop : List ThreadResult → Nat → Nat
  | [], total => total
  | t :: ts, total => joinLoop ts (total + t.ret)

/-- The function `main`; `argc` is the length of `argv`, and `pthread_create i` is the
value returned by the call of `pthread_create` for the thread `i`. -/
def main (fopen : List Char → Except (List Char) (List Char)) (pthread_create : Nat → Nat)
    (argv : List (List Char)) : MainResult :=
  if argv.length < 3 then
    { status := EXIT_FAILURE,
      stdout := ["Error: incorrect number of command line arguments.\n".toList,
        "Usage: ".toList ++ cstr (argv.getD 0 "(null)".toList) ++ " PATTERN [FILE]...\n".toList],
      threads := [], abandoned := 0 }
  else if strlen (argv.getD 1 []) > MAX_LINE_LENGTH then
    { status := EXIT_FAILURE,
      stdout := ["Error: pattern string is larger than max line length of ".toList
        ++ fmtNum MAX_LINE_LENGTH ++ ".\n".toList],
      threads := [], abandoned := 0 }
  else
    let files_count := argv.length - 2
    let input_data : InputData :=
      { pattern := argv.getD 1 [],
        files := (List.range files_count).map (fun i => argv.getD (i + 2) []) }
    match (List.range files_count).find? (fun i => decide (pthread_create i > 0)) with
    | some i =>
      { status := EXIT_FAILURE,
        stdout := ["Error: pthread could not start a new thread.\n".toList],
        threads := [], abandoned := i }
    | none =>
      let threads := (List.range files_count).map (threaded_search fopen input_data)
      { status := EXIT_SUCCESS,
        stdout := [printfTotal (joinLoop threads 0)],
        threads := threads, abandoned := 0 }

/-! ## The words of the specification -/

/-- The newline-delimited lines of a file content, each with its newline; the last
line has none when the file does not end in a newline. -/
def fileLines : List Char → List (List Char)
  | [] => []
  | c :: s =>
    if c = NL then [c] :: fileLines s
    else
      match fileLines s with
      | [] => [[c]]
      | l :: ls => (c :: l) :: ls

/-- The summary text the specification gives:
`Task <ID>: <COUNT> matches are found in file <FILENAME>` and a newline. -/
def specSummary (id count : Nat) (filename : List Char) : List Char :=
  "Task ".toList ++ Nat.toDigits 10 id ++ ": ".toList ++ Nat.toDigits 10 count
    ++ " matches are found in file ".toList ++ filename ++ "\n".toList

/-- The matched-line text the specification gives:
`<FILENAME : LINE_NUMBER>: LINE_TEXT`, the number in decimal digits. -/
def specMatchedLine (filename : List Char) (number : Nat) (text : List Char) : List Char :=
  "<".toList ++ filename ++ " : ".toList ++ Nat.toDigits 10 number ++ ">: ".toList ++ text

/-! ## The lines as the program reads them -/

/-- The buffers returned by the successive calls `fgets(line, size, file)` until NULL. -/
def fgetsAll (size : Nat) : Nat → List Char → List (List Char)
  | 0, _ => []
  | fuel + 1, stream =>
    match fgets size stream with
    | none => []
    | some (line, rest) => line :: fgetsAll size fuel rest

/-- The buffers that the loop of `threaded_search` sees, one per iteration. -/
def linesRead (file : List Char) : List (List Char) :=
  fgetsAll MAX_LINE_LENGTH file.length file

/-- The matched-line messages for the buffers `lines`, counted from `ln`, whose text
contains the pattern; the number printed is the count as an `int` holds it. -/
def matchMessages (filename P : List Char) (ln : Nat) (lines : List (List Char)) :
    List (List Char) :=
  ((lines.enumFrom ln).filter (fun x => decide (P <:+: cstr x.2))).map
    (fun x => printfMatch filename (wrapInt (x.1 : Nat)) x.2)

/-- The matched-line messages the specification gives: one
`<FILENAME : LINE_NUMBER>: LINE_TEXT` per line of the file that contains the pattern,
with the 1-based position of the line in the file and the whole line as its text. -/
def specMatchMessages (filename P F : List Char) : List (List Char) :=
  (((fileLines F).enumFrom 1).filter (fun x => decide (P <:+: x.2))).map
    (fun x => specMatchedLine filename x.1 x.2)

/-! ## Concrete inputs -/

/-- A file system in which every path opens and has the content `F`. -/
def everyFile (F : List Char) : List Char → Except (List Char) (List Char) :=
  fun _ => .ok F

/-- The file system of the scenario of the specification: the file `A` holds the lines
`foo bar`, `baz` and `foobar`; no other file exists. -/
def scenarioFiles : List Char → Except (List Char) (List Char) :=
  fun path =>
    if path = "A".toList then .ok "foo bar\nbaz\nfoobar\n".toList
    else .error "No such file or directory".toList

/-- The input data of the scenario: the pattern `foo` and the files `A` and `B`. -/
def scenarioInput : InputData :=
  { pattern := "foo".toList, files := ["A".toList, "B".toList] }

/-- A file of two lines: 1030 times `x` followed by `foo`, then the line `foo`. -/
def longLineFile : List Char :=
  List.replicate 1030 'x' ++ "foo\n".toList ++ "foo\n".toList

/-- A file of two lines: a line of 1024 bytes with its newline (`a`, then 1022 times
`x`), then the line `ab`. -/
def capLineFile : List Char :=
  'a' :: List.replicate 1022 'x' ++ "\n".toList ++ "ab\n".toList

/-- A file of one line with a NUL byte in it: `foo`, NUL, `bar`. -/
def binaryFile : List Char :=
  "foo".toList ++ [NUL] ++ "bar\n".toList

/-- A file of 2147483648 lines, each of them empty: 2^31 newlines. -/
def hugeFile : List Char := List.replicate 2147483648 NL

/-- The input data with the pattern `P` and the one file `A`. -/
def oneFile (P : List Char) : InputData :=
  { pattern := P, files := ["A".toList] }

/-! ## C strings and `strstr` -/

theorem cstr_of_not_mem {s : List Char} (h : NUL ∉ s) : cstr s = s := by
  induction s with
  | nil => rfl
  | cons c s ih =>
    have hc : c ≠ NUL := fun e => h (by simp [e])
    have hs : NUL ∉ s := fun e => h (by simp [e])
    simp [cstr, hc, ih hs]

theorem startsWith_iff (needle s : List Char) : startsWith needle s = true ↔ needle <+: s := by
  induction needle generalizing s with
  | nil => simp [startsWith]
  | cons a needle ih =>
    cases s with
    | nil => simp [startsWith]
    | cons b s => simp [startsWith, ih, List.cons_prefix_cons]

theorem strstrFrom_isSome_iff (needle s : List Char) :
    (strstrFrom needle s).isSome = true ↔ needle <:+: s := by
  induction s with
  | nil =>
    cases needle with
    | nil => simp [strstrFrom, startsWith]
    | cons a needle => simp [strstrFrom, startsWith]
  | cons c s ih =>
    by_cases h : startsWith needle (c :: s) = true
    · have hp : needle <+: c :: s := (startsWith_iff _ _).1 h
      simp [strstrFrom, h, hp.isInfix]
    · have hp : ¬ needle <+: c :: s := fun e => h ((startsWith_iff _ _).2 e)
      simp only [strstrFrom, h, Bool.false_eq_true, if_false, Option.isSome_map']
      rw [ih, List.infix_cons_iff]
      simp [hp]

theorem strstr_isSome_iff (haystack needle : List Char) :
    (strstr haystack needle).isSome = true ↔ cstr needle <:+: cstr haystack :=
  strstrFrom_isSome_iff _ _

theorem strstr_isSome_eq {P : List Char} (hP : NUL ∉ P) (line : List Char) :
    (strstr line P).isSome = decide (P <:+: cstr line) := by
  have h := strstr_isSome_iff line P
  rw [cstr_of_not_mem hP] at h
  by_cases hi : P <:+: cstr line
  · simp [hi, h.2 hi]
  · have : (strstr line P).isSome ≠ true := fun e => hi (h.1 e)
    simp [hi, this]

/-! ## `fgets` -/

theorem fgetsRead_nil (room : Nat) : fgetsRead room [] = ([], []) := by
  cases room <;> rfl

theorem fgetsRead_append (room : Nat) (s : List Char) :
    (fgetsRead room s).1 ++ (fgetsRead room s).2 = s := by
  induction room generalizing s with
  | zero => simp [fgetsRead]
  | succ room ih =>
    cases s with
    | nil => simp [fgetsRead]
    | cons c s =>
      by_cases hc : c = NL
      · simp [fgetsRead, hc]
      · simp [fgetsRead, hc, ih s]

theorem fgetsRead_length_le (room : Nat) (s : List Char) :
    (fgetsRead room s).1.length ≤ room := by
  induction room generalizing s with
  | zero => simp [fgetsRead]
  | succ room ih =>
    cases s with
    | nil => simp [fgetsRead]
    | cons c s =>
      by_cases hc : c = NL
      · simp [fgetsRead, hc]
      · simpa [fgetsRead, hc] using ih s

theorem fgetsRead_ne_nil (room : Nat) (c : Char) (s : List Char) :
    (fgetsRead (room + 1) (c :: s)).1 ≠ [] := by
  by_cases hc : c = NL <;> simp [fgetsRead, hc]

theorem fgetsRead_rest_length (room : Nat) (c : Char) (s : List Char) :
    (fgetsRead (room + 1) (c :: s)).2.length ≤ s.length := by
  have h := congrArg List.length (fgetsRead_append (room + 1) (c :: s))
  have h1 : 0 < (fgetsRead (room + 1) (c :: s)).1.length :=
    List.length_pos.2 (fgetsRead_ne_nil room c s)
  simp only [List.length_append, List.length_cons] at h
  omega

/-- Nothing is lost between the calls of `fgets`: with a buffer of two bytes or more the
buffers returned, put end to end, are the whole stream. -/
theorem concat_fgetsAll (size fuel : Nat) (hsize : 2 ≤ size) (F : List Char)
    (hfuel : F.length ≤ fuel) : (fgetsAll size fuel F).flatten = F := by
  induction fuel generalizing F with
  | zero =>
    have : F = [] := List.length_eq_zero.1 (Nat.le_zero.1 hfuel)
    simp [fgetsAll, this]
  | succ fuel ih =>
    cases F with
    | nil => simp [fgetsAll, fgets]
    | cons c s =>
      obtain ⟨room, hroom⟩ : ∃ room, size - 1 = room + 1 := ⟨size - 2, by omega⟩
      have hlen := fgetsRead_rest_length room c s
      have hs : s.length ≤ fuel := by simpa using hfuel
      simp only [fgetsAll, fgets, hroom, List.flatten_cons]
      rw [ih _ (le_trans hlen hs)]
      exact fgetsRead_append _ _

theorem concat_linesRead (F : List Char) : (linesRead F).flatten = F :=
  concat_fgetsAll MAX_LINE_LENGTH F.length (by decide) F (le_refl _)

/-- A buffer returned by `fgets(line, size, file)` holds at most `size - 1` bytes. -/
theorem length_le_of_mem_fgetsAll (size fuel : Nat) (F l : List Char)
    (h : l ∈ fgetsAll size fuel F) : l.length ≤ size - 1 := by
  induction fuel generalizing F with
  | zero => simp [fgetsAll] at h
  | succ fuel ih =>
    cases F with
    | nil => simp [fgetsAll, fgets] at h
    | cons c s =>
      simp only [fgetsAll, fgets, List.mem_cons] at h
      rcases h with h | h
      · rw [h]; exact fgetsRead_length_le _ _
      · exact ih _ h

/-! ## The loop of `threaded_search` -/

/-- An `int` holds a count below 2^31 as it is. -/
theorem wrapInt_of_lt (n : Nat) (h : n < 2147483648) : wrapInt (n : Int) = (n : Int) := by
  unfold wrapInt
  omega

/-- A step `ln++` on the `int` that holds the count `n` gives the `int` that holds the
count `n + 1`. -/
theorem wrapInt_succ (n : Nat) :
    wrapInt (wrapInt (n : Int) + 1) = wrapInt ((n + 1 : Nat) : Int) := by
  unfold wrapInt
  push_cast
  omega

theorem searchLoop_eq (filename P : List Char) (hP : NUL ∉ P) (fuel : Nat)
    (file : List Char) (ln count : Nat) :
    searchLoop filename P fuel file (wrapInt (ln : Int)) count
      = (matchMessages filename P ln (fgetsAll MAX_LINE_LENGTH fuel file),
         count + (fgetsAll MAX_LINE_LENGTH fuel file).countP
            (fun l => decide (P <:+: cstr l))) := by
  induction fuel generalizing file ln count with
  | zero => simp [searchLoop, fgetsAll, matchMessages]
  | succ fuel ih =>
    cases file with
    | nil => simp [searchLoop, fgetsAll, fgets, matchMessages]
    | cons c s =>
      simp only [searchLoop, fgetsAll, fgets, strstr_isSome_eq hP, wrapInt_succ, ih]
      by_cases hm : P <:+: cstr (fgetsRead (MAX_LINE_LENGTH - 1) (c :: s)).1
      · simp only [hm, decide_True, if_true, matchMessages, List.enumFrom_cons,
          List.filter_cons, List.map_cons, List.countP_cons]
        simp only [Nat.add_assoc, Nat.add_comm 1]
      · simp only [hm, decide_False, Bool.false_eq_true, if_false, matchMessages,
          List.enumFrom_cons, List.filter_cons, List.countP_cons, Nat.add_zero]

/-- The result of a thread whose file opens, in closed form. -/
theorem threaded_search_ok (fopen : List Char → Except (List Char) (List Char))
    (input_data : InputData) (id : Nat) (F : List Char)
    (hP : NUL ∉ input_data.pattern)
    (hopen : fopen (cstr (input_data.files.getD id [])) = .ok F) :
    threaded_search fopen input_data id =
      { stdout := matchMessages (input_data.files.getD id []) input_data.pattern 1 (linesRead F)
          ++ [printfSummary id ((linesRead F).countP
                (fun l => decide (input_data.pattern <:+: cstr l))) (input_data.files.getD id [])],
        ret := (linesRead F).countP (fun l => decide (input_data.pattern <:+: cstr l)) } := by
  have h1 : (1 : Int) = wrapInt ((1 : Nat) : Int) := by decide
  simp only [threaded_search, hopen]
  rw [h1, searchLoop_eq _ _ hP]
  simp only [linesRead, Nat.zero_add]

theorem threaded_search_failed (fopen : List Char → Except (List Char) (List Char))
    (input_data : InputData) (id : Nat) (err : List Char)
    (hopen : fopen (cstr (input_data.files.getD id [])) = .error err) :
    threaded_search fopen input_data id =
      { stdout := [printfOpenFailed id (input_data.files.getD id []) err], ret := 0 } := by
  simp only [threaded_search, hopen]

/-! ## File lines and the lines read -/

theorem fileLines_cons_ne_nil (c : Char) (s : List Char) : fileLines (c :: s) ≠ [] := by
  by_cases hc : c = NL
  · simp [fileLines, hc]
  · cases h : fileLines s <;> simp [fileLines, hc, h]

theorem fileLines_eq_nil {s : List Char} (h : fileLines s = []) : s = [] := by
  cases s with
  | nil => rfl
  | cons c s => exact absurd h (fileLines_cons_ne_nil c s)

theorem first_fileLines_ne_nil {s l : List Char} {ls : List (List Char)}
    (h : fileLines s = l :: ls) : l ≠ [] := by
  cases s with
  | nil => simp [fileLines] at h
  | cons c s =>
    by_cases hc : c = NL
    · simp only [fileLines, hc, if_true, List.cons.injEq] at h
      rw [← h.1]; simp
    · cases h' : fileLines s with
      | nil =>
        simp only [fileLines, hc, if_false, h', List.cons.injEq] at h
        rw [← h.1]; simp
      | cons l' ls' =>
        simp only [fileLines, hc, if_false, h', List.cons.injEq] at h
        rw [← h.1]; simp

/-- The lines of a file, put end to end, are the file. -/
theorem concat_fileLines (F : List Char) : (fileLines F).flatten = F := by
  induction F with
  | nil => rfl
  | cons c s ih =>
    by_cases hc : c = NL
    · simp [fileLines, hc, ih]
    · cases h : fileLines s with
      | nil => simp [fileLines, hc, h, fileLines_eq_nil h]
      | cons l ls =>
        rw [h] at ih
        simp only [List.flatten_cons] at ih
        simp [fileLines, hc, h, ih]

/-- A first line that fits in the room is what one `fgets` call reads, and the call
leaves the other lines. -/
theorem fgetsRead_of_fileLines (s : List Char) (room : Nat) (l : List Char)
    (ls : List (List Char)) (h : fileLines s = l :: ls) (hl : l.length ≤ room) :
    (fgetsRead room s).1 = l ∧ fileLines (fgetsRead room s).2 = ls := by
  induction s generalizing room l ls with
  | nil => simp [fileLines] at h
  | cons c s ih =>
    by_cases hc : c = NL
    · simp only [fileLines, hc, if_true, List.cons.injEq] at h
      obtain ⟨h1, h2⟩ := h
      subst h1
      cases room with
      | zero => simp at hl
      | succ room => simp [fgetsRead, hc, h2]
    · cases h' : fileLines s with
      | nil =>
        have hs : s = [] := fileLines_eq_nil h'
        simp only [fileLines, hc, if_false, h', List.cons.injEq] at h
        obtain ⟨h1, h2⟩ := h
        subst h1 h2 hs
        cases room with
        | zero => simp at hl
        | succ room => simp [fgetsRead, hc, fgetsRead_nil, fileLines]
      | cons l' ls' =>
        simp only [fileLines, hc, if_false, h', List.cons.injEq] at h
        obtain ⟨h1, h2⟩ := h
        subst h1 h2
        cases room with
        | zero => simp at hl
        | succ room =>
          have hl' : l'.length ≤ room := by simpa using hl
          obtain ⟨e1, e2⟩ := ih room l' ls' h' hl'
          simp [fgetsRead, hc, e1, e2]

/-- As long as the lines of the file fit in the buffer, the buffers returned by
`fgets` are these lines. -/
theorem take_fgetsAll (size fuel : Nat) (F : List Char) (k : Nat)
    (hfuel : F.length ≤ fuel)
    (hk : ∀ l ∈ (fileLines F).take k, l.length ≤ size - 1) :
    (fgetsAll size fuel F).take k = (fileLines F).take k := by
  induction fuel generalizing F k with
  | zero =>
    have : F = [] := List.length_eq_zero.1 (Nat.le_zero.1 hfuel)
    simp [fgetsAll, this, fileLines]
  | succ fuel ih =>
    cases k with
    | zero => simp
    | succ k =>
      cases F with
      | nil => simp [fgetsAll, fgets, fileLines]
      | cons c s =>
        cases h : fileLines (c :: s) with
        | nil => exact absurd h (fileLines_cons_ne_nil c s)
        | cons l ls =>
          rw [h] at hk
          have hl : l.length ≤ size - 1 := hk l (by simp)
          obtain ⟨e1, e2⟩ := fgetsRead_of_fileLines (c :: s) (size - 1) l ls h hl
          have happ := congrArg List.length (fgetsRead_append (size - 1) (c :: s))
          have hne : l ≠ [] := first_fileLines_ne_nil h
          have hpos : 0 < l.length := List.length_pos.2 hne
          have hrest : (fgetsRead (size - 1) (c :: s)).2.length ≤ fuel := by
            rw [e1] at happ
            simp only [List.length_append, List.length_cons] at happ hfuel
            omega
          have hk' : ∀ l' ∈ (fileLines (fgetsRead (size - 1) (c :: s)).2).take k,
              l'.length ≤ size - 1 := by
            intro l' hl'
            rw [e2] at hl'
            exact hk l' (by simp [hl'])
          simp only [fgetsAll, fgets, List.take_succ_cons, e1]
          rw [ih _ k hrest hk', e2]

/-! ## Messages of a thread -/

theorem mem_matchMessages {filename P : List Char} {ln : Nat} {lines : List (List Char)}
    {m : List Char} :
    m ∈ matchMessages filename P ln lines ↔
      ∃ k, ∃ hk : k < lines.length,
        P <:+: cstr lines[k]
        ∧ m = printfMatch filename (wrapInt ((ln + k : Nat) : Int)) lines[k] := by
  constructor
  · intro h
    simp only [matchMessages, List.mem_map, List.mem_filter, decide_eq_true_eq] at h
    obtain ⟨⟨i, x⟩, ⟨hmem, hin⟩, rfl⟩ := h
    obtain ⟨hle, hget⟩ := List.mk_mem_enumFrom_iff_le_and_getElem?_sub.1 hmem
    obtain ⟨hk, hx⟩ := List.getElem?_eq_some.1 hget
    refine ⟨i - ln, hk, ?_, ?_⟩
    · rw [hx]; exact hin
    · rw [hx]
      have : ln + (i - ln) = i := by omega
      rw [this]
  · rintro ⟨k, hk, hin, rfl⟩
    simp only [matchMessages, List.mem_map, List.mem_filter, decide_eq_true_eq]
    refine ⟨(ln + k, lines[k]), ⟨?_, hin⟩, rfl⟩
    exact List.mk_add_mem_enumFrom_iff_getElem?.2 (List.getElem?_eq_getElem hk)

theorem head_printfMatch (filename : List Char) (ln : Int) (line : List Char) :
    (printfMatch filename ln line).head? = some '<' := rfl

theorem head_printfSummary (id count : Nat) (filename : List Char) :
    (printfSummary id count filename).head? = some 'T' := rfl

theorem head_printfTotal (total : Nat) : (printfTotal total).head? = some 'T' := rfl

/-- The conversion `%d` of a number that is not negative gives its decimal digits. -/
theorem fmtInt_natCast (n : Nat) : fmtInt (n : Int) = Nat.toDigits 10 n := by
  have h : ¬ ((n : Int) < 0) := by omega
  simp only [fmtInt, h, if_false, Int.toNat_ofNat]

/-- Below 2^31 the number printed is the count itself, and the message is the text of
the specification. -/
theorem printfMatch_of_lt (filename line : List Char) (n : Nat) (h : n < 2147483648) :
    printfMatch filename (wrapInt (n : Int)) line
      = specMatchedLine (cstr filename) n (cstr line) := by
  rw [wrapInt_of_lt n h]
  simp only [printfMatch, specMatchedLine, fmtInt_natCast]

theorem matchMessages_of_lt (filename P : List Char) (ln : Nat) (lines : List (List Char))
    (h : ln + lines.length ≤ 2147483648) :
    matchMessages filename P ln lines
      = ((lines.enumFrom ln).filter (fun x => decide (P <:+: cstr x.2))).map
          (fun x => specMatchedLine (cstr filename) x.1 (cstr x.2)) := by
  unfold matchMessages
  apply List.map_congr_left
  intro x hx
  have hlt := List.fst_lt_add_of_mem_enumFrom (List.mem_of_mem_filter hx)
  exact printfMatch_of_lt filename x.2 x.1 (by omega)

theorem matchMessages_nil_pattern (filename : List Char) (ln : Nat)
    (lines : List (List Char)) :
    matchMessages filename [] ln lines
      = (lines.enumFrom ln).map (fun x => printfMatch filename (wrapInt (x.1 : Nat)) x.2) := by
  simp [matchMessages]

theorem matchMessages_length (filename P : List Char) (ln : Nat) (lines : List (List Char)) :
    (matchMessages filename P ln lines).length
      = lines.countP (fun l => decide (P <:+: cstr l)) := by
  induction lines generalizing ln with
  | nil => simp [matchMessages]
  | cons l ls ih =>
    have ih' := ih (ln + 1)
    simp only [matchMessages, List.length_map] at ih' ⊢
    by_cases h : P <:+: cstr l
    · simp [List.enumFrom_cons, List.filter_cons, List.countP_cons, h, ih']
    · simp [List.enumFrom_cons, List.filter_cons, List.countP_cons, h, ih']

theorem pairwise_numbers (p : Nat × List Char → Bool) (ln : Nat) (lines : List (List Char)) :
    List.Pairwise (fun a b => a < b) (((lines.enumFrom ln).filter p).map Prod.fst) := by
  apply List.Pairwise.map Prod.fst (R := fun a b => a.1 < b.1) (fun _ _ h => h)
  apply List.Pairwise.filter
  rw [← List.pairwise_map (f := Prod.fst) (R := fun a b => a < b), List.enumFrom_map_fst]
  exact List.pairwise_lt_range' ln lines.length

/-- The texts of the buffers that match, in the order of reading, are the texts of the
matched-line messages. -/
theorem forall2_matchMessages (filename P : List Char) (ln : Nat)
    (lines : List (List Char)) :
    List.Forall₂ (fun m buffer => ∃ number : Int, m = printfMatch filename number buffer)
      (matchMessages filename P ln lines)
      (lines.filter (fun buffer => decide (P <:+: cstr buffer))) := by
  induction lines generalizing ln with
  | nil => simp [matchMessages]
  | cons l ls ih =>
    have ih' := ih (ln + 1)
    simp only [matchMessages] at ih' ⊢
    by_cases h : P <:+: cstr l
    · simp only [List.enumFrom_cons, List.filter_cons, h, decide_True, if_true,
        List.map_cons]
      exact List.Forall₂.cons ⟨_, rfl⟩ ih'
    · simp only [List.enumFrom_cons, List.filter_cons, h, decide_False,
        Bool.false_eq_true, if_false]
      exact ih'

/-! ## The lines read and the lines of the file -/

/-- The buffers read are the lines of the file as long as these fit in one call. -/
theorem getElem?_linesRead (F : List Char) (k : Nat)
    (hk : ∀ l ∈ (fileLines F).take (k + 1), l.length ≤ MAX_LINE_LENGTH - 1) :
    (linesRead F)[k]? = (fileLines F)[k]? := by
  have h := take_fgetsAll MAX_LINE_LENGTH F.length F (k + 1) (le_refl _) hk
  have h1 := List.getElem?_take_of_lt (l := linesRead F) (Nat.lt_succ_self k)
  have h2 := List.getElem?_take_of_lt (l := fileLines F) (Nat.lt_succ_self k)
  rw [← h1, ← h2]
  exact congrArg (fun l => l[k]?) h

theorem linesRead_eq_fileLines (F : List Char)
    (hshort : ∀ l ∈ fileLines F, l.length ≤ MAX_LINE_LENGTH - 1) :
    linesRead F = fileLines F := by
  have h := take_fgetsAll MAX_LINE_LENGTH F.length F
    ((linesRead F).length + (fileLines F).length) (le_refl _)
    (fun l hl => hshort l (List.mem_of_mem_take hl))
  rw [List.take_of_length_le (Nat.le_add_left _ _)] at h
  have h' : List.take ((linesRead F).length + (fileLines F).length) (linesRead F)
      = linesRead F := List.take_of_length_le (Nat.le_add_right _ _)
  exact h'.symm.trans h

theorem not_mem_of_mem_fileLines {F : List Char} (hF : NUL ∉ F) {l : List Char}
    (hl : l ∈ fileLines F) : NUL ∉ l := by
  intro h
  apply hF
  rw [← concat_fileLines F]
  exact List.mem_flatten_of_mem hl h

theorem not_mem_of_mem_linesRead {F : List Char} (hF : NUL ∉ F) {l : List Char}
    (hl : l ∈ linesRead F) : NUL ∉ l := by
  intro h
  apply hF
  rw [← concat_linesRead F]
  exact List.mem_flatten_of_mem hl h

/-! ## A file of newlines -/

theorem fgetsAll_newlines (size fuel n : Nat) (hsize : 2 ≤ size) (h : n ≤ fuel) :
    fgetsAll size fuel (List.replicate n NL) = List.replicate n [NL] := by
  induction n generalizing fuel with
  | zero => cases fuel <;> simp [fgetsAll, fgets]
  | succ n ih =>
    cases fuel with
    | zero => omega
    | succ fuel =>
      obtain ⟨room, hroom⟩ : ∃ room, size - 1 = room + 1 := ⟨size - 2, by omega⟩
      simp only [List.replicate_succ, fgetsAll, fgets, hroom, fgetsRead, if_true]
      rw [ih fuel (by omega)]

theorem linesRead_newlines (n : Nat) :
    linesRead (List.replicate n NL) = List.replicate n [NL] := by
  unfold linesRead
  exact fgetsAll_newlines MAX_LINE_LENGTH _ n (by decide) (by simp)

theorem fileLines_newlines (n : Nat) :
    fileLines (List.replicate n NL) = List.replicate n [NL] := by
  induction n with
  | zero => rfl
  | succ n ih => simp only [List.replicate_succ, fileLines, if_true, ih]

/-- The message printed for the line `i + 1` of a file of `n` newlines, with the empty
pattern: its number is the count `i + 1` as an `int` holds it. -/
theorem stdout_newlines (n i : Nat) (h : i < n) :
    (threaded_search (everyFile (List.replicate n NL)) (oneFile []) 0).stdout[i]?
      = some (printfMatch "A".toList (wrapInt ((1 + i : Nat) : Int)) [NL]) := by
  have hP : NUL ∉ (oneFile []).pattern := by simp [oneFile]
  rw [threaded_search_ok (everyFile (List.replicate n NL)) (oneFile []) 0
    (List.replicate n NL) hP rfl]
  have hfile : (oneFile []).files.getD 0 [] = "A".toList := rfl
  have hpat : (oneFile []).pattern = [] := rfl
  simp only [hfile, hpat, linesRead_newlines, matchMessages_nil_pattern]
  rw [List.getElem?_append_left (by simpa using h)]
  simp [List.getElem?_enumFrom, List.getElem?_replicate, h]

/-- The message the specification gives for the line `i + 1` of a file of `n`
newlines, with the empty pattern. -/
theorem specMatchMessages_newlines (n i : Nat) (h : i < n) :
    (specMatchMessages "A".toList [] (List.replicate n NL))[i]?
      = some (specMatchedLine "A".toList (1 + i) [NL]) := by
  simp [specMatchMessages, fileLines_newlines, List.getElem?_enumFrom,
    List.getElem?_replicate, h]

theorem hugeFile_line : (fileLines hugeFile)[2147483647]? = some [NL] := by
  unfold hugeFile
  rw [fileLines_newlines, List.getElem?_replicate, if_pos (by decide)]

theorem hugeFile_printed :
    (threaded_search (everyFile hugeFile) (oneFile []) 0).stdout[2147483647]?
      = some "<A : -2147483648>: \n".toList := by
  unfold hugeFile
  rw [stdout_newlines 2147483648 2147483647 (by decide)]
  exact congrArg some (by decide)

theorem hugeFile_specified :
    (specMatchMessages "A".toList [] hugeFile)[2147483647]?
      = some "<A : 2147483648>: \n".toList := by
  unfold hugeFile
  rw [specMatchMessages_newlines 2147483648 2147483647 (by decide)]
  exact congrArg some (by decide)

theorem hugeFile_no_NUL : NUL ∉ hugeFile := by
  intro h
  have h' : NUL = NL := List.eq_of_mem_replicate h
  exact absurd h' (by decide)

theorem hugeFile_short_lines : ∀ l ∈ fileLines hugeFile, l.length ≤ 1023 := by
  intro l hl
  unfold hugeFile at hl
  rw [fileLines_newlines] at hl
  rw [List.eq_of_mem_replicate hl]
  decide

/-! ## The claims about one thread -/

/-- C8, as stated, fails: the summary of the thread 0 for the file `A` of the scenario
starts with the word `Thread`, not with the word `Task`. -/
theorem C8_counterexample :
    (threaded_search scenarioFiles scenarioInput 0).stdout
        = ["<A : 1>: foo bar\n".toList, "<A : 3>: foobar\n".toList,
            "Thread 0: 2 matches are found in file A\n".toList]
    ∧ (threaded_search scenarioFiles scenarioInput 0).ret = 2
    ∧ specSummary 0 2 "A".toList = "Task 0: 2 matches are found in file A\n".toList
    ∧ specSummary 0 2 "A".toList ∉ (threaded_search scenarioFiles scenarioInput 0).stdout := by
  decide

/-- C8, amended. A thread whose file opens prints exactly one summary message, after
all of its matched-line messages, and its text is
`Thread <ID>: <COUNT> matches are found in file <FILENAME>` followed by a newline, with
the index of the thread, the count it returns and the name `files[ID]`. -/
theorem C8_summary_message (fopen : List Char → Except (List Char) (List Char))
    (input_data : InputData) (id : Nat) (F : List Char)
    (hid : id < input_data.files.length)
    (hname : NUL ∉ input_data.files.getD id [])
    (hP : NUL ∉ input_data.pattern)
    (hopen : fopen (input_data.files.getD id []) = .ok F) :
    ∃ matched : List (List Char),
      (threaded_search fopen input_data id).stdout
        = matched ++ ["Thread ".toList ++ fmtNum id ++ ": ".toList
            ++ fmtNum (threaded_search fopen input_data id).ret
            ++ " matches are found in file ".toList ++ input_data.files[id] ++ "\n".toList]
      ∧ (∀ m ∈ matched, ∃ ln line, m = printfMatch input_data.files[id] ln line)
      ∧ (∀ m ∈ matched, ∀ count, m ≠ printfSummary id count input_data.files[id]) := by
  have hget : input_data.files.getD id [] = input_data.files[id] := by
    simp [List.getD_eq_getElem?_getD, List.getElem?_eq_getElem hid]
  have hopen' : fopen (cstr (input_data.files.getD id [])) = .ok F := by
    rw [cstr_of_not_mem hname]; exact hopen
  rw [threaded_search_ok fopen input_data id F hP hopen', hget]
  rw [hget] at hname
  refine ⟨matchMessages input_data.files[id] input_data.pattern 1 (linesRead F), ?_, ?_, ?_⟩
  · simp [printfSummary, cstr_of_not_mem hname]
  · intro m hm
    obtain ⟨k, hk, _, rfl⟩ := mem_matchMessages.1 hm
    exact ⟨_, _, rfl⟩
  · intro m hm count e
    obtain ⟨k, hk, _, rfl⟩ := mem_matchMessages.1 hm
    have h1 := head_printfMatch input_data.files[id] (wrapInt ((1 + k : Nat) : Int))
      (linesRead F)[k]
    rw [e, head_printfSummary] at h1
    exact absurd h1 (by decide)

/-- The amended C8 on the thread 0 of the scenario. -/
theorem C8_summary_message_witness :
    (0 < scenarioInput.files.length
      ∧ NUL ∉ scenarioInput.files.getD 0 []
      ∧ NUL ∉ scenarioInput.pattern
      ∧ scenarioFiles (scenarioInput.files.getD 0 []) = .ok "foo bar\nbaz\nfoobar\n".toList)
    ∧ ∃ matched : List (List Char),
      (threaded_search scenarioFiles scenarioInput 0).stdout
        = matched ++ ["Thread ".toList ++ fmtNum 0 ++ ": ".toList
            ++ fmtNum (threaded_search scenarioFiles scenarioInput 0).ret
            ++ " matches are found in file ".toList ++ "A".toList ++ "\n".toList]
      ∧ (∀ m ∈ matched, ∃ ln line, m = printfMatch "A".toList ln line)
      ∧ (∀ m ∈ matched, ∀ count, m ≠ printfSummary 0 count "A".toList) :=
  ⟨⟨by decide, by decide, by decide, rfl⟩,
    C8_summary_message scenarioFiles scenarioInput 0 "foo bar\nbaz\nfoobar\n".toList
      (by decide) (by decide) (by decide) rfl⟩

/-! ## The claims about `main` -/

theorem joinLoop_eq (threads : List ThreadResult) (total : Nat) :
    joinLoop threads total = total + (threads.map ThreadResult.ret).sum := by
  induction threads generalizing total with
  | nil => simp [joinLoop]
  | cons t ts ih => simp [joinLoop, ih, Nat.add_assoc]

theorem find_create_failure (pthread_create : Nat → Nat) (h : ∀ i, pthread_create i = 0)
    (n : Nat) : (List.range n).find? (fun i => decide (pthread_create i > 0)) = none := by
  simp [h]

theorem files_of_argv (prog pattern : List Char) (files : List (List Char)) :
    (List.range files.length).map
        (fun i => (prog :: pattern :: files).getD (i + 2) []) = files := by
  apply List.ext_getElem
  · simp
  · intro i h1 h2
    simp [List.getD_eq_getElem?_getD, List.getElem?_eq_getElem h2]

/-- The run of `main` with a pattern, at least one file and no failure of
`pthread_create`, in closed form. -/
theorem main_ok (fopen : List Char → Except (List Char) (List Char))
    (pthread_create : Nat → Nat) (prog pattern : List Char) (files : List (List Char))
    (hfiles : files ≠ []) (hpat : strlen pattern ≤ MAX_LINE_LENGTH)
    (hcreate : ∀ i, pthread_create i = 0) :
    main fopen pthread_create (prog :: pattern :: files) =
      { status := EXIT_SUCCESS,
        stdout := [printfTotal (((List.range files.length).map
          (fun i => (threaded_search fopen ⟨pattern, files⟩ i).ret)).sum)],
        threads := (List.range files.length).map (threaded_search fopen ⟨pattern, files⟩),
        abandoned := 0 } := by
  have hlen : ¬ (prog :: pattern :: files).length < 3 := by
    have : 0 < files.length := List.length_pos.2 hfiles
    simp only [List.length_cons]; omega
  have hpat' : ¬ strlen ((prog :: pattern :: files).getD 1 []) > MAX_LINE_LENGTH := by
    simpa using hpat
  have hget : (prog :: pattern :: files).getD 1 [] = pattern := rfl
  have hn : (prog :: pattern :: files).length - 2 = files.length := by simp
  unfold main
  rw [if_neg hlen, if_neg hpat']
  simp only [hn, files_of_argv, find_create_failure pthread_create hcreate, hget, joinLoop_eq,
    Nat.zero_add, List.map_map]
  rfl

/-- C2. When `main` runs its threads (a pattern within the bound, at least one file,
threads created), the one message it prints is `Total matched lines: `, the decimal
digits of the sum, over the files in order, of the counts returned by the threads it
joined, and a newline; a thread whose file does not open returns 0; so with two files
of which one is missing the total printed is the count of the thread of the other
file. -/
theorem C2_total_is_sum (fopen : List Char → Except (List Char) (List Char))
    (pthread_create : Nat → Nat) (prog pattern : List Char) (files : List (List Char))
    (hfiles : files ≠ []) (hpat : strlen pattern ≤ MAX_LINE_LENGTH)
    (hcreate : ∀ i, pthread_create i = 0) :
    (main fopen pthread_create (prog :: pattern :: files)).stdout
        = ["Total matched lines: ".toList
            ++ Nat.toDigits 10 (((List.range files.length).map
                (fun i => (threaded_search fopen ⟨pattern, files⟩ i).ret)).sum)
            ++ "\n".toList]
    ∧ (main fopen pthread_create (prog :: pattern :: files)).threads
        = (List.range files.length).map (threaded_search fopen ⟨pattern, files⟩)
    ∧ (∀ i err, fopen (cstr (files.getD i [])) = .error err →
        (threaded_search fopen ⟨pattern, files⟩ i).ret = 0)
    ∧ (∀ a b err, files = [a, b] → fopen (cstr b) = .error err →
        (main fopen pthread_create (prog :: pattern :: files)).stdout
          = ["Total matched lines: ".toList
              ++ Nat.toDigits 10 (threaded_search fopen ⟨pattern, files⟩ 0).ret
              ++ "\n".toList])
    ∧ (∀ a b err, files = [a, b] → fopen (cstr a) = .error err →
        (main fopen pthread_create (prog :: pattern :: files)).stdout
          = ["Total matched lines: ".toList
              ++ Nat.toDigits 10 (threaded_search fopen ⟨pattern, files⟩ 1).ret
              ++ "\n".toList]) := by
  have hzero : ∀ i err, fopen (cstr (files.getD i [])) = .error err →
      (threaded_search fopen ⟨pattern, files⟩ i).ret = 0 := by
    intro i err h
    rw [threaded_search_failed fopen ⟨pattern, files⟩ i err h]
  rw [main_ok fopen pthread_create prog pattern files hfiles hpat hcreate]
  refine ⟨rfl, rfl, hzero, ?_, ?_⟩
  · intro a b err hf hb
    subst hf
    have h1 := hzero 1 err (by simpa using hb)
    simp [List.range_succ, h1, printfTotal, fmtNum]
  · intro a b err hf ha
    subst hf
    have h0 := hzero 0 err (by simpa using ha)
    simp [List.range_succ, h0, printfTotal, fmtNum]

/-- The scenario of C2: the files `A` and `B`, of which `B` is missing; the total
printed is the count of `A`, 2. -/
theorem C2_total_is_sum_witness :
    (["A".toList, "B".toList] ≠ []
      ∧ strlen "foo".toList ≤ MAX_LINE_LENGTH
      ∧ ∀ i : Nat, (fun _ => 0 : Nat → Nat) i = 0)
    ∧ (threaded_search scenarioFiles scenarioInput 0).ret = 2
    ∧ (threaded_search scenarioFiles scenarioInput 1).ret = 0
    ∧ (main scenarioFiles (fun _ => 0)
          ["my_grep".toList, "foo".toList, "A".toList, "B".toList]).stdout
        = ["Total matched lines: 2\n".toList]
    ∧ (main scenarioFiles (fun _ => 0)
          ["my_grep".toList, "foo".toList, "A".toList, "B".toList]).stdout
        = ["Total matched lines: ".toList
            ++ Nat.toDigits 10 (threaded_search scenarioFiles scenarioInput 0).ret
            ++ "\n".toList] :=
  ⟨⟨by decide, by decide, fun _ => rfl⟩, by decide, by decide, by decide,
    (C2_total_is_sum scenarioFiles (fun _ => 0) "my_grep".toList "foo".toList
      ["A".toList, "B".toList] (by decide) (by decide) (fun _ => rfl)).2.2.2.1
      "A".toList "B".toList "No such file or directory".toList rfl rfl⟩

/-- C9. When `pthread_create` never fails, `main` returns `EXIT_FAILURE` if and only if
fewer than two arguments follow the name of the program or the pattern is longer than
1024 characters; in that case no thread is run and no total is printed. In every other
case it returns `EXIT_SUCCESS` and has run one thread per file, whatever the files do
when they are opened; a pattern of 1024 characters is accepted. -/
theorem C9_exit_status (fopen : List Char → Except (List Char) (List Char))
    (pthread_create : Nat → Nat) (argv : List (List Char))
    (hcreate : ∀ i, pthread_create i = 0) :
    ((main fopen pthread_create argv).status = EXIT_FAILURE
        ↔ (argv.tail.length < 2 ∨ 1024 < strlen (argv.getD 1 [])))
    ∧ ((main fopen pthread_create argv).status = EXIT_FAILURE →
        (main fopen pthread_create argv).threads = []
        ∧ (main fopen pthread_create argv).abandoned = 0
        ∧ ∀ total, printfTotal total ∉ (main fopen pthread_create argv).stdout)
    ∧ ((main fopen pthread_create argv).status ≠ EXIT_FAILURE →
        (main fopen pthread_create argv).status = EXIT_SUCCESS
        ∧ (main fopen pthread_create argv).threads.length = argv.tail.length - 1)
    ∧ (2 ≤ argv.tail.length → strlen (argv.getD 1 []) = 1024 →
        (main fopen pthread_create argv).status = EXIT_SUCCESS) := by
  have htail : argv.tail.length = argv.length - 1 := List.length_tail argv
  by_cases h1 : argv.length < 3
  · have hm : main fopen pthread_create argv =
        { status := EXIT_FAILURE,
          stdout := ["Error: incorrect number of command line arguments.\n".toList,
            "Usage: ".toList ++ cstr (argv.getD 0 "(null)".toList)
              ++ " PATTERN [FILE]...\n".toList],
          threads := [], abandoned := 0 } := by
      unfold main; rw [if_pos h1]
    rw [hm]
    refine ⟨⟨fun _ => Or.inl (by omega), fun _ => rfl⟩, fun _ => ⟨rfl, rfl, ?_⟩,
      fun h => absurd rfl h, fun h => by omega⟩
    intro total hmem
    simp only [List.mem_cons, List.mem_singleton, List.not_mem_nil, or_false] at hmem
    have hh := head_printfTotal total
    rcases hmem with e | e
    · rw [e] at hh
      exact absurd hh (by decide)
    · rw [e] at hh
      have hU : some 'U' = some 'T' := hh
      exact absurd hU (by decide)
  · by_cases h2 : strlen (argv.getD 1 []) > MAX_LINE_LENGTH
    · have hm : main fopen pthread_create argv =
          { status := EXIT_FAILURE,
            stdout := ["Error: pattern string is larger than max line length of ".toList
              ++ fmtNum MAX_LINE_LENGTH ++ ".\n".toList],
            threads := [], abandoned := 0 } := by
        unfold main; rw [if_neg h1, if_pos h2]
      rw [hm]
      have h2' : 1024 < strlen (argv.getD 1 []) := h2
      refine ⟨⟨fun _ => Or.inr h2', fun _ => rfl⟩, fun _ => ⟨rfl, rfl, ?_⟩,
        fun h => absurd rfl h, fun _ h => by omega⟩
      intro total hmem
      simp only [List.mem_singleton] at hmem
      have hh := head_printfTotal total
      rw [hmem] at hh
      exact absurd hh (by decide)
    · have hm : main fopen pthread_create argv =
          { status := EXIT_SUCCESS,
            stdout := [printfTotal (joinLoop ((List.range (argv.length - 2)).map
              (threaded_search fopen
                { pattern := argv.getD 1 [],
                  files := (List.range (argv.length - 2)).map
                    (fun i => argv.getD (i + 2) []) })) 0)],
            threads := (List.range (argv.length - 2)).map
              (threaded_search fopen
                { pattern := argv.getD 1 [],
                  files := (List.range (argv.length - 2)).map
                    (fun i => argv.getD (i + 2) []) }),
            abandoned := 0 } := by
        unfold main
        rw [if_neg h1, if_neg h2]
        simp only [find_create_failure pthread_create hcreate]
      rw [hm]
      have h2' : ¬ 1024 < strlen (argv.getD 1 []) := h2
      have hne : EXIT_SUCCESS ≠ EXIT_FAILURE := by decide
      refine ⟨⟨fun h => absurd h hne, fun h => ?_⟩, fun h => absurd h hne,
        fun _ => ⟨rfl, ?_⟩, fun _ _ => rfl⟩
      · rcases h with h | h
        · omega
        · exact absurd h h2'
      · simp only [List.length_map, List.length_range]
        omega

/-- The four cases of C9: a missing file, a pattern of 1024 characters, a pattern of
1025 characters, no file. -/
theorem C9_exit_status_witness :
    (∀ i : Nat, (fun _ => 0 : Nat → Nat) i = 0)
    ∧ (main scenarioFiles (fun _ => 0)
        ["my_grep".toList, "foo".toList, "B".toList]).status = EXIT_SUCCESS
    ∧ (main scenarioFiles (fun _ => 0)
        ["my_grep".toList, List.replicate 1024 'p', "A".toList]).status = EXIT_SUCCESS
    ∧ (main scenarioFiles (fun _ => 0)
        ["my_grep".toList, List.replicate 1025 'p', "A".toList]).status = EXIT_FAILURE
    ∧ (main scenarioFiles (fun _ => 0) ["my_grep".toList, "foo".toList]).status = EXIT_FAILURE :=
  ⟨fun _ => rfl,
    (C9_exit_status scenarioFiles (fun _ => 0) ["my_grep".toList, "foo".toList, "B".toList]
      (fun _ => rfl)).2.2.1 (by decide) |>.1,
    (C9_exit_status scenarioFiles (fun _ => 0)
      ["my_grep".toList, List.replicate 1024 'p', "A".toList] (fun _ => rfl)).2.2.2
      (by decide) (by decide!),
    (C9_exit_status scenarioFiles (fun _ => 0)
      ["my_grep".toList, List.replicate 1025 'p', "A".toList] (fun _ => rfl)).1.2
      (Or.inr (by decide!)),
    (C9_exit_status scenarioFiles (fun _ => 0) ["my_grep".toList, "foo".toList]
      (fun _ => rfl)).1.2 (Or.inl (by decide))⟩

/-! ## Line numbers and long lines -/

/-- C3, as stated, fails. The line `foo` is the second line of `longLineFile`; the
thread prints it with the number 3, and prints nothing with the number 2 but the end of
the first line. And the line 2147483648 of `hugeFile` is printed with the number
-2147483648, the value that `int ln` holds after 2147483647 steps from 1. -/
theorem C3_counterexample :
    ((fileLines longLineFile)[1]? = some "foo\n".toList
      ∧ (threaded_search (everyFile longLineFile) (oneFile "foo".toList) 0).stdout
          = ["<A : 2>: xxxxxxxfoo\n".toList, "<A : 3>: foo\n".toList,
              "Thread 0: 2 matches are found in file A\n".toList]
      ∧ "<A : 2>: foo\n".toList
          ∉ (threaded_search (everyFile longLineFile) (oneFile "foo".toList) 0).stdout)
    ∧ ((fileLines hugeFile)[2147483647]? = some [NL]
      ∧ (threaded_search (everyFile hugeFile) (oneFile []) 0).stdout[2147483647]?
          = some "<A : -2147483648>: \n".toList) :=
  ⟨by decide!, hugeFile_line, hugeFile_printed⟩

/-- C3, amended. In a file read in fewer than 2^31 calls of `fgets`, the number printed
with a matched line is the 1-based position of its buffer among the buffers returned by
the successive calls, matched or not: the buffer `k` (from 0) is printed with the
decimal digits of `k + 1` when it matches, and every message before the summary is of
this kind. A buffer is a line of the file, at the same position, when that line and the
lines before it fit in one `fgets` call each. -/
theorem C3_line_numbers (fopen : List Char → Except (List Char) (List Char))
    (input_data : InputData) (id : Nat) (F : List Char)
    (hP : NUL ∉ input_data.pattern)
    (hopen : fopen (cstr (input_data.files.getD id [])) = .ok F) :
    ((linesRead F).length < 2147483648 →
      (∀ k, ∀ hk : k < (linesRead F).length,
          input_data.pattern <:+: cstr (linesRead F)[k] →
          specMatchedLine (cstr (input_data.files.getD id [])) (k + 1)
              (cstr (linesRead F)[k])
            ∈ (threaded_search fopen input_data id).stdout)
      ∧ (∀ m ∈ (threaded_search fopen input_data id).stdout.dropLast,
          ∃ k, ∃ hk : k < (linesRead F).length,
            input_data.pattern <:+: cstr (linesRead F)[k]
            ∧ m = specMatchedLine (cstr (input_data.files.getD id [])) (k + 1)
                    (cstr (linesRead F)[k])))
    ∧ (∀ k, (∀ l ∈ (fileLines F).take (k + 1), l.length ≤ MAX_LINE_LENGTH - 1) →
        (linesRead F)[k]? = (fileLines F)[k]?) := by
  rw [threaded_search_ok fopen input_data id F hP hopen]
  refine ⟨fun hlt => ⟨?_, ?_⟩, fun k hk => getElem?_linesRead F k hk⟩
  · intro k hk hin
    simp only [List.mem_append, List.mem_singleton]
    refine Or.inl (mem_matchMessages.2 ⟨k, hk, hin, ?_⟩)
    rw [printfMatch_of_lt _ _ (1 + k) (by omega), Nat.add_comm]
  · intro m hm
    simp only [List.dropLast_concat] at hm
    obtain ⟨k, hk, hin, rfl⟩ := mem_matchMessages.1 hm
    refine ⟨k, hk, hin, ?_⟩
    rw [printfMatch_of_lt _ _ (1 + k) (by omega), Nat.add_comm]

/-- The amended C3 on the scenario: the third buffer read is the line `foobar`, printed
with the number 3. -/
theorem C3_line_numbers_witness :
    (NUL ∉ scenarioInput.pattern
      ∧ scenarioFiles (cstr (scenarioInput.files.getD 0 [])) = .ok "foo bar\nbaz\nfoobar\n".toList
      ∧ (linesRead "foo bar\nbaz\nfoobar\n".toList).length < 2147483648)
    ∧ (linesRead "foo bar\nbaz\nfoobar\n".toList)[2]? = some "foobar\n".toList
    ∧ "<A : 3>: foobar\n".toList = specMatchedLine "A".toList 3 "foobar\n".toList
    ∧ specMatchedLine "A".toList 3 "foobar\n".toList
        ∈ (threaded_search scenarioFiles scenarioInput 0).stdout :=
  ⟨⟨by decide, rfl, by decide⟩, by decide, by decide,
    ((C3_line_numbers scenarioFiles scenarioInput 0 "foo bar\nbaz\nfoobar\n".toList
      (by decide) rfl).1 (by decide)).1 2 (by decide) (by decide)⟩

/-- C4, as stated, fails. The first line of `longLineFile` is longer than 1024
characters and `foo` does not occur within its first 1024 characters, and yet the
thread reports the rest of the line, from its character 1024 on, as a match of its own
with the number 2. -/
theorem C4_counterexample :
    (∃ line, (fileLines longLineFile)[0]? = some line
      ∧ MAX_LINE_LENGTH < line.length
      ∧ ¬ "foo".toList <:+: line.take MAX_LINE_LENGTH
      ∧ line.drop 1023 = "xxxxxxxfoo\n".toList)
    ∧ "<A : 2>: xxxxxxxfoo\n".toList
        ∈ (threaded_search (everyFile longLineFile) (oneFile "foo".toList) 0).stdout := by
  refine ⟨⟨List.replicate 1030 'x' ++ "foo\n".toList, ?_, ?_, ?_, ?_⟩, ?_⟩ <;> decide!

/-- C4, amended. A line too long for one `fgets` call is not cut: the buffers returned
by the successive calls, put end to end, are the whole file, and each buffer, the first
of a line or a later one, is searched on its own. The count returned is the number of
buffers whose text up to the first NUL contains the pattern; the messages before the
summary are one matched-line message per such buffer, in the order of reading, each
with the text of its buffer; and in a file read in fewer than 2^31 calls the message of
the buffer `k` (from 0) carries the number `k + 1`. -/
theorem C4_long_lines_read_in_pieces (fopen : List Char → Except (List Char) (List Char))
    (input_data : InputData) (id : Nat) (F : List Char)
    (hP : NUL ∉ input_data.pattern)
    (hopen : fopen (cstr (input_data.files.getD id [])) = .ok F) :
    (linesRead F).flatten = F
    ∧ (threaded_search fopen input_data id).ret
        = ((linesRead F).filter
            (fun buffer => decide (input_data.pattern <:+: cstr buffer))).length
    ∧ List.Forall₂
        (fun m buffer =>
          ∃ number : Int, m = printfMatch (input_data.files.getD id []) number buffer)
        (threaded_search fopen input_data id).stdout.dropLast
        ((linesRead F).filter (fun buffer => decide (input_data.pattern <:+: cstr buffer)))
    ∧ ((linesRead F).length < 2147483648 →
        ∀ k, ∀ hk : k < (linesRead F).length,
          input_data.pattern <:+: cstr (linesRead F)[k] →
          specMatchedLine (cstr (input_data.files.getD id [])) (k + 1)
              (cstr (linesRead F)[k])
            ∈ (threaded_search fopen input_data id).stdout) := by
  rw [threaded_search_ok fopen input_data id F hP hopen]
  refine ⟨concat_linesRead F, ?_, ?_, ?_⟩
  · simp [List.countP_eq_length_filter]
  · simp only [List.dropLast_concat]
    exact forall2_matchMessages _ _ _ _
  · intro hlt k hk hin
    simp only [List.mem_append, List.mem_singleton]
    refine Or.inl (mem_matchMessages.2 ⟨k, hk, hin, ?_⟩)
    rw [printfMatch_of_lt _ _ (1 + k) (by omega), Nat.add_comm]

/-- The amended C4 on `longLineFile` with the pattern `foo`: the line of 1034 bytes is
read as buffers of 1023 and 11 bytes, the second of which matches and is printed with
the number 2; and on the scenario, where the first buffer is printed with the
number 1. -/
theorem C4_long_lines_read_in_pieces_witness :
    (NUL ∉ (oneFile "foo".toList).pattern
      ∧ everyFile longLineFile (cstr ((oneFile "foo".toList).files.getD 0 [])) = .ok longLineFile
      ∧ (linesRead longLineFile).length < 2147483648)
    ∧ (linesRead longLineFile).flatten = longLineFile
    ∧ (linesRead longLineFile).map List.length = [1023, 11, 4]
    ∧ (threaded_search (everyFile longLineFile) (oneFile "foo".toList) 0).ret
        = ((linesRead longLineFile).filter
            (fun buffer => decide ((oneFile "foo".toList).pattern <:+: cstr buffer))).length
    ∧ (linesRead longLineFile)[1]? = some "xxxxxxxfoo\n".toList
    ∧ specMatchedLine "A".toList 2 "xxxxxxxfoo\n".toList
        ∈ (threaded_search (everyFile longLineFile) (oneFile "foo".toList) 0).stdout
    ∧ ((linesRead "foo bar\nbaz\nfoobar\n".toList).length < 2147483648
      ∧ specMatchedLine "A".toList 1 "foo bar\n".toList
          ∈ (threaded_search scenarioFiles scenarioInput 0).stdout) :=
  ⟨⟨by decide, rfl, by decide!⟩,
    (C4_long_lines_read_in_pieces (everyFile longLineFile) (oneFile "foo".toList) 0
      longLineFile (by decide) rfl).1,
    by decide!,
    (C4_long_lines_read_in_pieces (everyFile longLineFile) (oneFile "foo".toList) 0
      longLineFile (by decide) rfl).2.1,
    by decide!,
    by decide!,
    by decide,
    (C4_long_lines_read_in_pieces scenarioFiles scenarioInput 0
      "foo bar\nbaz\nfoobar\n".toList (by decide) rfl).2.2.2 (by decide) 0 (by decide)
      (by decide)⟩

/-- C5: the behaviour of the program on a line of exactly 1024 bytes. The first
line of `capLineFile` has 1024 bytes, its newline included, and contains `a`; the
thread prints it without its newline (1023 bytes of text), reads the newline as a line
of its own and so prints the next line, `ab`, with the number 3; with the empty
pattern it counts three lines in this file of two. -/
theorem C5_cap_line_is_split :
    (fileLines capLineFile).map List.length = [1024, 3]
    ∧ threaded_search (everyFile capLineFile) (oneFile "a".toList) 0
        = { stdout := ["<A : 1>: a".toList ++ List.replicate 1022 'x',
                        "<A : 3>: ab\n".toList,
                        "Thread 0: 2 matches are found in file A\n".toList],
            ret := 2 }
    ∧ (linesRead capLineFile).map List.length = [1023, 1, 3]
    ∧ (threaded_search (everyFile capLineFile) (oneFile []) 0).ret = 3 := by
  decide!

/-! ## The messages of a thread, in order -/

/-- Without a NUL byte in the lines, the text of a line is the whole line. -/
theorem map_specMatchedLine_of_no_NUL (filename P : List Char) (ln : Nat)
    (lines : List (List Char)) (h : ∀ l ∈ lines, NUL ∉ l) :
    ((lines.enumFrom ln).filter (fun x => decide (P <:+: cstr x.2))).map
        (fun x => specMatchedLine filename x.1 (cstr x.2))
      = ((lines.enumFrom ln).filter (fun x => decide (P <:+: x.2))).map
          (fun x => specMatchedLine filename x.1 x.2) := by
  have hx : ∀ x ∈ lines.enumFrom ln, cstr x.2 = x.2 := fun x hx =>
    cstr_of_not_mem (h x.2 (List.snd_mem_of_mem_enumFrom hx))
  rw [List.filter_congr (q := fun x => decide (P <:+: x.2))
    (fun x hmem => by rw [hx x hmem])]
  apply List.map_congr_left
  intro x hmem
  simp only [hx x (List.mem_of_mem_filter hmem)]

/-- C6, as stated, fails. The line of `binaryFile` contains `foo` and is read whole,
but the message printed for it holds its text up to the NUL byte only, without the
newline. The first line of `longLineFile`, the only one that contains `x`, gives two
messages. And the message of the line 2147483648 of `hugeFile` carries the number
-2147483648. -/
theorem C6_counterexample :
    (specMatchMessages "A".toList "foo".toList binaryFile
        = ["<A : 1>: ".toList ++ binaryFile]
      ∧ (threaded_search (everyFile binaryFile) (oneFile "foo".toList) 0).stdout
        = ["<A : 1>: foo".toList, "Thread 0: 1 matches are found in file A\n".toList]
      ∧ (threaded_search (everyFile binaryFile) (oneFile "foo".toList) 0).stdout
        ≠ specMatchMessages "A".toList "foo".toList binaryFile
            ++ [printfSummary 0 1 "A".toList])
    ∧ ((specMatchMessages "A".toList "x".toList longLineFile).length = 1
      ∧ ((threaded_search (everyFile longLineFile) (oneFile "x".toList) 0).stdout.map
            (List.take 9))
          = ["<A : 1>: ".toList, "<A : 2>: ".toList, "Thread 0:".toList])
    ∧ ((specMatchMessages "A".toList [] hugeFile)[2147483647]?
          = some "<A : 2147483648>: \n".toList
      ∧ (threaded_search (everyFile hugeFile) (oneFile []) 0).stdout[2147483647]?
          = some "<A : -2147483648>: \n".toList) :=
  ⟨by decide!, by decide!, hugeFile_specified, hugeFile_printed⟩

/-- C6, amended. A thread whose file opens and is read in fewer than 2^31 calls of
`fgets` prints one message `<FILENAME : LINE_NUMBER>: LINE_TEXT` for each buffer
returned by `fgets` whose text up to the first NUL contains the pattern, with the
position of the buffer as its number and this text as its text, in increasing order of
the numbers, and then one summary message; the count returned and printed in the
summary is the number of these messages. When the file has no NUL byte the text is the
whole buffer, its newline included. In the scenario (pattern `foo`, file `A` with the
lines `foo bar`, `baz`, `foobar`) the messages are those of the lines 1 and 3 and a
summary with the count 2, and the thread returns 2. -/
theorem C6_messages_in_order (fopen : List Char → Except (List Char) (List Char))
    (input_data : InputData) (id : Nat) (F : List Char)
    (hP : NUL ∉ input_data.pattern)
    (hopen : fopen (cstr (input_data.files.getD id [])) = .ok F) :
    ((linesRead F).length < 2147483648 →
      (threaded_search fopen input_data id).stdout
        = (((linesRead F).enumFrom 1).filter
              (fun x => decide (input_data.pattern <:+: cstr x.2))).map
            (fun x => "<".toList ++ cstr (input_data.files.getD id []) ++ " : ".toList
              ++ Nat.toDigits 10 x.1 ++ ">: ".toList ++ cstr x.2)
          ++ ["Thread ".toList ++ Nat.toDigits 10 id ++ ": ".toList
                ++ Nat.toDigits 10 (threaded_search fopen input_data id).ret
                ++ " matches are found in file ".toList
                ++ cstr (input_data.files.getD id []) ++ "\n".toList])
    ∧ (threaded_search fopen input_data id).ret
        = (((linesRead F).enumFrom 1).filter
              (fun x => decide (input_data.pattern <:+: cstr x.2))).length
    ∧ List.Pairwise (fun a b => a < b)
        ((((linesRead F).enumFrom 1).filter
            (fun x => decide (input_data.pattern <:+: cstr x.2))).map Prod.fst)
    ∧ ((linesRead F).length < 2147483648 → NUL ∉ F →
        (threaded_search fopen input_data id).stdout.dropLast
          = (((linesRead F).enumFrom 1).filter
                (fun x => decide (input_data.pattern <:+: x.2))).map
              (fun x => "<".toList ++ cstr (input_data.files.getD id []) ++ " : ".toList
                ++ Nat.toDigits 10 x.1 ++ ">: ".toList ++ x.2))
    ∧ threaded_search scenarioFiles scenarioInput 0
        = { stdout := ["<A : 1>: foo bar\n".toList, "<A : 3>: foobar\n".toList,
                        "Thread 0: 2 matches are found in file A\n".toList],
            ret := 2 } := by
  rw [threaded_search_ok fopen input_data id F hP hopen]
  refine ⟨?_, ?_, pairwise_numbers _ _ _, ?_, by decide⟩
  · intro hlt
    rw [matchMessages_of_lt _ _ _ _ (by omega)]
    rfl
  · have h := matchMessages_length (input_data.files.getD id []) input_data.pattern 1
      (linesRead F)
    simp only [matchMessages, List.length_map] at h
    exact h.symm
  · intro hlt hF
    simp only [List.dropLast_concat]
    rw [matchMessages_of_lt _ _ _ _ (by omega)]
    exact map_specMatchedLine_of_no_NUL _ _ _ _
      (fun l hl => not_mem_of_mem_linesRead hF hl)

/-- The amended C6 on `binaryFile` with the pattern `foo`: one message, with the text
of the line up to its NUL byte, and the summary. -/
theorem C6_messages_in_order_witness :
    (NUL ∉ (oneFile "foo".toList).pattern
      ∧ everyFile binaryFile (cstr ((oneFile "foo".toList).files.getD 0 [])) = .ok binaryFile
      ∧ (linesRead binaryFile).length < 2147483648)
    ∧ (threaded_search (everyFile binaryFile) (oneFile "foo".toList) 0).stdout
        = (((linesRead binaryFile).enumFrom 1).filter
              (fun x => decide ((oneFile "foo".toList).pattern <:+: cstr x.2))).map
            (fun x => "<".toList ++ cstr ((oneFile "foo".toList).files.getD 0 [])
              ++ " : ".toList ++ Nat.toDigits 10 x.1 ++ ">: ".toList ++ cstr x.2)
          ++ ["Thread ".toList ++ Nat.toDigits 10 0 ++ ": ".toList
                ++ Nat.toDigits 10
                    (threaded_search (everyFile binaryFile) (oneFile "foo".toList) 0).ret
                ++ " matches are found in file ".toList
                ++ cstr ((oneFile "foo".toList).files.getD 0 []) ++ "\n".toList]
    ∧ (threaded_search (everyFile binaryFile) (oneFile "foo".toList) 0).stdout
        = ["<A : 1>: foo".toList, "Thread 0: 1 matches are found in file A\n".toList] :=
  ⟨⟨by decide, rfl, by decide⟩,
    (C6_messages_in_order (everyFile binaryFile) (oneFile "foo".toList) 0 binaryFile
      (by decide) rfl).1 (by decide),
    by decide⟩

/-- C7, as stated, fails: `longLineFile` has two lines, and with the empty pattern the
thread returns 3 and prints matched lines with the numbers 1, 2 and 3. And for the line
2147483648 of `hugeFile` the message printed carries the number -2147483648. -/
theorem C7_counterexample :
    ((fileLines longLineFile).length = 2
      ∧ (threaded_search (everyFile longLineFile) (oneFile []) 0).ret = 3
      ∧ (threaded_search (everyFile longLineFile) (oneFile []) 0).ret
          ≠ (fileLines longLineFile).length
      ∧ ((threaded_search (everyFile longLineFile) (oneFile []) 0).stdout.map (List.take 9))
          = ["<A : 1>: ".toList, "<A : 2>: ".toList, "<A : 3>: ".toList,
              "Thread 0:".toList])
    ∧ ((fileLines hugeFile)[2147483647]? = some "\n".toList
      ∧ (threaded_search (everyFile hugeFile) (oneFile []) 0).stdout[2147483647]?
          = some "<A : -2147483648>: \n".toList
      ∧ "<A : -2147483648>: \n".toList ≠ specMatchedLine "A".toList 2147483648 "\n".toList) :=
  ⟨by decide!, hugeFile_line, hugeFile_printed, by decide⟩

/-- C7, amended. The empty pattern matches every buffer read: the thread returns the
number `n` of buffers returned by the successive `fgets` calls, and for `n` below 2^31
it prints a matched-line message for each of the numbers 1 to `n`, then the summary
with the count `n`; `n` is the number of lines of the file when every line fits in one
`fgets` call. A file with no line gives 0 matches and the summary with the count 0
alone. -/
theorem C7_empty_pattern (fopen : List Char → Except (List Char) (List Char))
    (input_data : InputData) (id : Nat) (F : List Char)
    (hpat : input_data.pattern = [])
    (hopen : fopen (cstr (input_data.files.getD id [])) = .ok F) :
    (threaded_search fopen input_data id).ret = (linesRead F).length
    ∧ ((linesRead F).length < 2147483648 →
        (threaded_search fopen input_data id).stdout
          = ((linesRead F).enumFrom 1).map
              (fun x => "<".toList ++ cstr (input_data.files.getD id []) ++ " : ".toList
                ++ Nat.toDigits 10 x.1 ++ ">: ".toList ++ cstr x.2)
            ++ ["Thread ".toList ++ Nat.toDigits 10 id ++ ": ".toList
                  ++ Nat.toDigits 10 (linesRead F).length
                  ++ " matches are found in file ".toList
                  ++ cstr (input_data.files.getD id []) ++ "\n".toList])
    ∧ (((linesRead F).enumFrom 1).map Prod.fst = List.range' 1 (linesRead F).length)
    ∧ ((∀ l ∈ fileLines F, l.length ≤ MAX_LINE_LENGTH - 1) →
        (threaded_search fopen input_data id).ret = (fileLines F).length)
    ∧ (F = [] →
        (threaded_search fopen input_data id).ret = 0
        ∧ (threaded_search fopen input_data id).stdout
            = ["Thread ".toList ++ Nat.toDigits 10 id ++ ": ".toList
                ++ Nat.toDigits 10 0 ++ " matches are found in file ".toList
                ++ cstr (input_data.files.getD id []) ++ "\n".toList]) := by
  have hP : NUL ∉ input_data.pattern := by rw [hpat]; simp
  rw [threaded_search_ok fopen input_data id F hP hopen, hpat]
  have hcount : (linesRead F).countP (fun l => decide (([] : List Char) <:+: cstr l))
      = (linesRead F).length := by simp
  refine ⟨hcount, ?_, List.enumFrom_map_fst _ _, ?_, ?_⟩
  · intro hlt
    rw [matchMessages_of_lt _ _ _ _ (by omega), hcount]
    simp [specMatchedLine, printfSummary, fmtNum]
  · intro hshort
    show (linesRead F).countP (fun l => decide (([] : List Char) <:+: cstr l))
      = (fileLines F).length
    rw [hcount, linesRead_eq_fileLines F hshort]
  · intro hF
    subst hF
    exact ⟨rfl, rfl⟩

/-- The amended C7 on `longLineFile`: three buffers are read from its two lines, and
three matched-line messages are printed, then the summary. -/
theorem C7_empty_pattern_witness :
    ((oneFile []).pattern = []
      ∧ everyFile longLineFile (cstr ((oneFile []).files.getD 0 [])) = .ok longLineFile
      ∧ (linesRead longLineFile).length < 2147483648)
    ∧ (threaded_search (everyFile longLineFile) (oneFile []) 0).ret
        = (linesRead longLineFile).length
    ∧ (linesRead longLineFile).length = 3
    ∧ (threaded_search (everyFile longLineFile) (oneFile []) 0).stdout
        = ((linesRead longLineFile).enumFrom 1).map
            (fun x => "<".toList ++ cstr ((oneFile []).files.getD 0 []) ++ " : ".toList
              ++ Nat.toDigits 10 x.1 ++ ">: ".toList ++ cstr x.2)
          ++ ["Thread ".toList ++ Nat.toDigits 10 0 ++ ": ".toList
                ++ Nat.toDigits 10 (linesRead longLineFile).length
                ++ " matches are found in file ".toList
                ++ cstr ((oneFile []).files.getD 0 []) ++ "\n".toList] :=
  ⟨⟨rfl, rfl, by decide!⟩,
    (C7_empty_pattern (everyFile longLineFile) (oneFile []) 0 longLineFile rfl rfl).1,
    by decide!,
    (C7_empty_pattern (everyFile longLineFile) (oneFile []) 0 longLineFile rfl rfl).2.1
      (by decide!)⟩

/-- C10, as stated, fails. `hugeFile` has no NUL byte and its 2147483648 lines have one
byte each; with the empty pattern every line matches, and the message of the line
2147483648 should carry this number, but the message printed carries -2147483648, the
value that `int ln` holds after 2147483647 steps from 1. -/
theorem C10_counterexample :
    NUL ∉ hugeFile
    ∧ (∀ l ∈ fileLines hugeFile, l.length ≤ 1023)
    ∧ everyFile hugeFile (cstr ((oneFile []).files.getD 0 [])) = .ok hugeFile
    ∧ (fileLines hugeFile)[2147483647]? = some "\n".toList
    ∧ (specMatchMessages "A".toList [] hugeFile)[2147483647]?
        = some "<A : 2147483648>: \n".toList
    ∧ (threaded_search (everyFile hugeFile) (oneFile []) 0).stdout[2147483647]?
        = some "<A : -2147483648>: \n".toList :=
  ⟨hugeFile_no_NUL, hugeFile_short_lines, rfl, hugeFile_line, hugeFile_specified,
    hugeFile_printed⟩

/-- C10, amended. For a pattern (a C string) and a file that opens, has no NUL byte and
whose lines, newline included, have at most 1023 characters, every iteration of the
loop of `threaded_search` consumes exactly one line of the file, and the count returned
is the number of lines that contain the pattern; when the file has fewer than 2^31
lines, the messages before the summary are the matched-line messages of these lines,
each with the position of the line in the file and its whole text. -/
theorem C10_short_lines (fopen : List Char → Except (List Char) (List Char))
    (input_data : InputData) (id : Nat) (F : List Char)
    (hP : NUL ∉ input_data.pattern)
    (hopen : fopen (cstr (input_data.files.getD id [])) = .ok F)
    (hF : NUL ∉ F)
    (hshort : ∀ l ∈ fileLines F, l.length ≤ 1023) :
    linesRead F = fileLines F
    ∧ (threaded_search fopen input_data id).ret
        = (fileLines F).countP (fun l => decide (input_data.pattern <:+: l))
    ∧ ((fileLines F).length < 2147483648 →
        (threaded_search fopen input_data id).stdout
          = (((fileLines F).enumFrom 1).filter
                (fun x => decide (input_data.pattern <:+: x.2))).map
              (fun x => "<".toList ++ cstr (input_data.files.getD id []) ++ " : ".toList
                ++ Nat.toDigits 10 x.1 ++ ">: ".toList ++ x.2)
            ++ ["Thread ".toList ++ Nat.toDigits 10 id ++ ": ".toList
                  ++ Nat.toDigits 10
                      ((fileLines F).countP (fun l => decide (input_data.pattern <:+: l)))
                  ++ " matches are found in file ".toList
                  ++ cstr (input_data.files.getD id []) ++ "\n".toList]) := by
  have hlines : linesRead F = fileLines F := linesRead_eq_fileLines F hshort
  have hcount : (fileLines F).countP (fun l => decide (input_data.pattern <:+: cstr l))
      = (fileLines F).countP (fun l => decide (input_data.pattern <:+: l)) := by
    apply List.countP_congr
    intro l hl
    rw [cstr_of_not_mem (not_mem_of_mem_fileLines hF hl)]
  rw [threaded_search_ok fopen input_data id F hP hopen, hlines, hcount]
  refine ⟨rfl, rfl, ?_⟩
  intro hlt
  rw [matchMessages_of_lt _ _ _ _ (by omega),
    map_specMatchedLine_of_no_NUL _ _ _ _ (fun l hl => not_mem_of_mem_fileLines hF hl)]
  rfl

/-- The amended C10 on the file `A` of the scenario. -/
theorem C10_short_lines_witness :
    (NUL ∉ scenarioInput.pattern
      ∧ scenarioFiles (cstr (scenarioInput.files.getD 0 [])) = .ok "foo bar\nbaz\nfoobar\n".toList
      ∧ NUL ∉ "foo bar\nbaz\nfoobar\n".toList
      ∧ (∀ l ∈ fileLines "foo bar\nbaz\nfoobar\n".toList, l.length ≤ 1023)
      ∧ (fileLines "foo bar\nbaz\nfoobar\n".toList).length < 2147483648)
    ∧ linesRead "foo bar\nbaz\nfoobar\n".toList = fileLines "foo bar\nbaz\nfoobar\n".toList
    ∧ (threaded_search scenarioFiles scenarioInput 0).ret
        = (fileLines "foo bar\nbaz\nfoobar\n".toList).countP
            (fun l => decide (scenarioInput.pattern <:+: l))
    ∧ (threaded_search scenarioFiles scenarioInput 0).stdout
        = (((fileLines "foo bar\nbaz\nfoobar\n".toList).enumFrom 1).filter
              (fun x => decide (scenarioInput.pattern <:+: x.2))).map
            (fun x => "<".toList ++ cstr (scenarioInput.files.getD 0 []) ++ " : ".toList
              ++ Nat.toDigits 10 x.1 ++ ">: ".toList ++ x.2)
          ++ ["Thread ".toList ++ Nat.toDigits 10 0 ++ ": ".toList
                ++ Nat.toDigits 10
                    ((fileLines "foo bar\nbaz\nfoobar\n".toList).countP
                      (fun l => decide (scenarioInput.pattern <:+: l)))
                ++ " matches are found in file ".toList
                ++ cstr (scenarioInput.files.getD 0 []) ++ "\n".toList] :=
  ⟨⟨by decide, rfl, by decide, by decide, by decide⟩,
    (C10_short_lines scenarioFiles scenarioInput 0 "foo bar\nbaz\nfoobar\n".toList
      (by decide) rfl (by decide) (by decide)).1,
    (C10_short_lines scenarioFiles scenarioInput 0 "foo bar\nbaz\nfoobar\n".toList
      (by decide) rfl (by decide) (by decide)).2.1,
    (C10_short_lines scenarioFiles scenarioInput 0 "foo bar\nbaz\nfoobar\n".toList
      (by decide) rfl (by decide) (by decide)).2.2 (by decide)⟩

end MyGrep
